import Mathlib

/-!
Shallow embedding of the go-twitch client library (twitch.go, user.go).

HTTP interaction is modelled explicitly: request construction is a pure
function producing an `HttpRequest`; executing a request is application of a
`transport` function supplied to each operation, standing for
`httpClient.Do`.  Each operation returns the Go result pair together with
the list of requests it actually issued, so "no network call was made" is
the trace being `[]`.

JSON decoding (`json.NewDecoder(res.Body).Decode(&target)`) writes into a
pre-zeroed target and may return an error after having populated some
fields (encoding/json skips fields whose JSON type mismatches the target
and reports the error at the end).  The decode outcome is therefore
modelled as the pair `target-contents × Option error`, carried in the
response body.
-/

/-- Package-level base URI, set in `init` of twitch.go. -/
def baseURI : String := "https://api.twitch.tv/kraken"

/-- The Accept media type set by every transport helper. -/
def acceptMediaType : String := "application/vnd.twitchtv.v5+json"

/-- A Client contains all of the fields necessary for making requests. -/
structure Client where
  clientID : String
  secret : String
  redirectURI : String
deriving DecidableEq

/-- An Access holds an access token along with the authorization scope list. -/
structure Access where
  Token : String
  Scope : List String
deriving DecidableEq

/-- An AccessClient wraps a twitch client with an Access struct. -/
structure AccessClient where
  access : Access
  client : Client
deriving DecidableEq

/-- NewClient creates a new Client. -/
def NewClient (clientID secret redirectURI : String) : Client :=
  { clientID := clientID, secret := secret, redirectURI := redirectURI }

/-- NewAccess creates an Access from an existing token/scope combination. -/
def NewAccess (token : String) (scope : List String) : Access :=
  { Token := token, Scope := scope }

def Client.ClientID (c : Client) : String :=
  c.clientID

def Client.Secret (c : Client) : String :=
  c.secret

def Client.RedirectURI (c : Client) : String :=
  c.redirectURI

/-- WithAccess wraps the Client with an Access struct. -/
def Client.WithAccess (c : Client) (access : Access) : AccessClient :=
  { access := access, client := c }

/-- The error message of `Access.ValidateScope` for a missing scope. -/
def scopeErrMsg (scope : String) : String :=
  "Can not complete request because Access struct does not have \x27" ++ scope ++ "\x27 scope"

/-- The linear scan inside `Access.ValidateScope`: early return on exact
match, otherwise the missing-scope error after the loop. -/
def scopeScan : List String → String → Option String
  | [], scope => some (scopeErrMsg scope)
  | s :: rest, scope => if s = scope then none else scopeScan rest scope

/-- ValidateScope: `none` is Go's `nil` error, `some msg` the error. -/
def Access.ValidateScope (a : Access) (scope : String) : Option String :=
  scopeScan a.Scope scope

/-- Helper to call ValidateScope directly on the AccessClient. -/
def AccessClient.validateScope (ac : AccessClient) (scope : String) : Option String :=
  ac.access.ValidateScope scope

/-- An outbound HTTP request as constructed by the library.  `query` holds
the `url.Values` pairs in the order they were added (they are encoded into
the URI string by `Encode`); helpers that bake the query into the URI
string leave it `[]`.  `body` is `none` for a nil request body. -/
structure HttpRequest where
  method : String
  uri : String
  query : List (String × String)
  headers : List (String × String)
  body : Option String
deriving DecidableEq

/-- A response as consumed by the library: status code plus the outcome of
decoding the body into the operation's target type (contents written to
the target and the optional decode error, see the file comment). -/
structure HttpResponse (α : Type) where
  statusCode : Nat
  body : α × Option String

/-- Result of `httpClient.Do`: transport failure or a response. -/
def TransportResult (α : Type) : Type :=
  Except String (HttpResponse α)

/-- Request built by `Client.makeGetRequest` (header-setting part;
execution is applying the transport at the call site). -/
def Client.makeGetRequest (c : Client) (uri : String) : HttpRequest :=
  { method := "GET", uri := uri, query := [],
    headers := [("Client-ID", c.ClientID), ("Accept", acceptMediaType)],
    body := none }

/-- Request built by `AccessClient.makeGetRequest`. -/
def AccessClient.makeGetRequest (ac : AccessClient) (uri : String) : HttpRequest :=
  { method := "GET", uri := uri, query := [],
    headers := [("Authorization", "OAuth " ++ ac.access.Token),
                ("Client-ID", ac.client.ClientID), ("Accept", acceptMediaType)],
    body := none }

/-- Request built by `Client.makePostRequest`. -/
def Client.makePostRequest (c : Client) (uri : String) (payload : String) : HttpRequest :=
  { method := "POST", uri := uri, query := [],
    headers := [("Client-ID", c.ClientID), ("Accept", acceptMediaType)],
    body := some payload }

/-- Request built by `AccessClient.makePostRequest`. -/
def AccessClient.makePostRequest (ac : AccessClient) (uri : String) (payload : String) :
    HttpRequest :=
  { method := "POST", uri := uri, query := [],
    headers := [("Authorization", "OAuth " ++ ac.access.Token),
                ("Client-ID", ac.client.ClientID), ("Accept", acceptMediaType),
                ("Content-Type", "application/json")],
    body := some payload }

/-- Request built by `AccessClient.makePutRequest`. -/
def AccessClient.makePutRequest (ac : AccessClient) (uri : String) (payload : String) :
    HttpRequest :=
  { method := "PUT", uri := uri, query := [],
    headers := [("Authorization", "OAuth " ++ ac.access.Token),
                ("Client-ID", ac.client.ClientID), ("Accept", acceptMediaType),
                ("Content-Type", "application/json")],
    body := some payload }

/-- Request built by `AccessClient.makeDeleteRequest`. -/
def AccessClient.makeDeleteRequest (ac : AccessClient) (uri : String) : HttpRequest :=
  { method := "DELETE", uri := uri, query := [],
    headers := [("Authorization", "OAuth " ++ ac.access.Token),
                ("Client-ID", ac.client.ClientID), ("Accept", acceptMediaType)],
    body := none }

/-- time.Time modelled as its textual value; the zero time is "". -/
abbrev GoTime : Type := String

structure Notifications where
  Email : Bool
  Push : Bool
deriving DecidableEq

/-- A User record (user.go). -/
structure User where
  ID : String
  Bio : String
  DisplayName : String
  Email : String
  EmailVerified : Bool
  Logo : String
  Name : String
  Notifications : Notifications
  Partnered : Bool
  TwitterConnected : Bool
  «Type» : String
  CreatedAt : GoTime
  UpdatedAt : GoTime
deriving DecidableEq

/-- A Channel record (channel.go). -/
structure Channel where
  ID : String
  Name : String
  DisplayName : String
  Email : String
  Mature : Bool
  Status : String
  Language : String
  BroadcasterLanguage : String
  Game : String
  Partner : Bool
  Logo : String
  VideoBanner : String
  ProfileBanner : String
  ProfileBannerBackgroundColor : String
  URL : String
  Views : Nat
  Followers : Nat
  BroadcasterType : String
  StreamKey : String
  CreatedAt : GoTime
  UpdatedAt : GoTime
deriving DecidableEq

structure Subscription where
  ID : String
  SubPlan : String
  SubPlanName : String
  Channel : Channel
  CreatedAt : GoTime
deriving DecidableEq

structure Follow where
  Notifications : Bool
  Channel : Channel
  CreatedAt : GoTime
deriving DecidableEq

set_option linter.dupNamespace false in
structure Follows where
  Total : Nat
  Follows : List Follow
deriving DecidableEq

structure Block where
  ID : String
  User : User
  UpdatedAt : GoTime
deriving DecidableEq

/-- The anonymous struct decoded by GetUsersByName. -/
structure UsersResult where
  Total : Nat
  Users : List User
deriving DecidableEq

/-- Go zero value of Notifications. -/
def Notifications.zero : Notifications :=
  { Email := false, Push := false }

/-- Go zero value of User (`var user User`). -/
def User.zero : User :=
  { ID := "", Bio := "", DisplayName := "", Email := "", EmailVerified := false,
    Logo := "", Name := "", Notifications := Notifications.zero, Partnered := false,
    TwitterConnected := false, «Type» := "", CreatedAt := "", UpdatedAt := "" }

/-- Go zero value of Channel. -/
def Channel.zero : Channel :=
  { ID := "", Name := "", DisplayName := "", Email := "", Mature := false,
    Status := "", Language := "", BroadcasterLanguage := "", Game := "",
    Partner := false, Logo := "", VideoBanner := "", ProfileBanner := "",
    ProfileBannerBackgroundColor := "", URL := "", Views := 0, Followers := 0,
    BroadcasterType := "", StreamKey := "", CreatedAt := "", UpdatedAt := "" }

/-- Go zero value of Subscription (`var subscription Subscription`). -/
def Subscription.zero : Subscription :=
  { ID := "", SubPlan := "", SubPlanName := "", Channel := Channel.zero,
    CreatedAt := "" }

/-- Go zero value of Follow (`var follow Follow`). -/
def Follow.zero : Follow :=
  { Notifications := false, Channel := Channel.zero, CreatedAt := "" }

/-- Go zero value of Block (`var block Block`). -/
def Block.zero : Block :=
  { ID := "", User := User.zero, UpdatedAt := "" }

/-- Go zero value of Access (`var access Access`). -/
def Access.zero : Access :=
  { Token := "", Scope := [] }

/-- The authorize URI built by `Client.getAuthorizeURI`: path plus the
`url.Values` added to the query string, in `Add` order. -/
structure AuthUri where
  path : String
  query : List (String × String)
deriving DecidableEq

/-- getAuthorizeURI (twitch.go 125-136). -/
def Client.getAuthorizeURI (c : Client) (scope : List String) : AuthUri :=
  { path := baseURI ++ "/oauth2/authorize",
    query := [("client_id", c.ClientID),
              ("redirect_uri", c.RedirectURI),
              ("response_type", "code"),
              ("scope", String.intercalate " " scope)] }

/-- The HTTP redirect issued by the handler returned from `Client.Authorize`:
`http.Redirect(w, r, authURI.String(), 302)`. -/
structure RedirectResponse where
  code : Nat
  location : AuthUri
deriving DecidableEq

/-- Authorize (twitch.go 78-84): the handler redirects with status 302 to
the authorize URI for the given scopes. -/
def Client.Authorize (c : Client) (scope : List String) : RedirectResponse :=
  { code := 302, location := c.getAuthorizeURI scope }

/-- The token-exchange request constructed inside `Client.getAccessToken`
(twitch.go 97-111): a POST with the five query parameters added in order
and a nil body.  No headers are set on this request. -/
def Client.getAccessTokenRequest (c : Client) (authCode : String) : HttpRequest :=
  { method := "POST", uri := baseURI ++ "/oauth2/token",
    query := [("client_id", c.ClientID),
              ("client_secret", c.Secret),
              ("code", authCode),
              ("grant_type", "authorization_code"),
              ("redirect_uri", c.RedirectURI)],
    headers := [], body := none }

/-- getAccessToken (twitch.go 95-123): build the token request, execute it,
decode the body into an Access.  (The `http.NewRequest` error branch is
unreachable for this fixed method and a well-formed URI and is omitted.) -/
def Client.getAccessToken (c : Client) (authCode : String)
    (transport : HttpRequest → TransportResult Access) :
    (Access × Option String) × List HttpRequest :=
  let access := Access.zero
  let req := c.getAccessTokenRequest authCode
  match transport req with
  | .error e => ((access, some e), [req])
  | .ok res =>
    match res.body with
    | (a, some e) => ((a, some e), [req])
    | (a, none) => ((a, none), [req])

/-- GetUser (user.go 62-81): scope check, GET {baseURI}/user, decode. -/
def AccessClient.GetUser (ac : AccessClient)
    (transport : HttpRequest → TransportResult User) :
    (User × Option String) × List HttpRequest :=
  let user := User.zero
  match ac.validateScope "user_read" with
  | some err => ((user, some err), [])
  | none =>
    let uri := baseURI ++ "/user"
    let req := ac.makeGetRequest uri
    match transport req with
    | .error e => ((user, some e), [req])
    | .ok res =>
      match res.body with
      | (u, some e) => ((u, some e), [req])
      | (u, none) => ((u, none), [req])

/-- GetUserByID (user.go 84-98).  The `id` argument is accepted but the
URI is `{baseURI}/user` and `id` appears nowhere in the body. -/
def Client.GetUserByID (c : Client) (id : String)
    (transport : HttpRequest → TransportResult User) :
    (User × Option String) × List HttpRequest :=
  let user := User.zero
  let _ := id
  let uri := baseURI ++ "/user"
  let req := c.makeGetRequest uri
  match transport req with
  | .error e => ((user, some e), [req])
  | .ok res =>
    match res.body with
    | (u, some e) => ((u, some e), [req])
    | (u, none) => ((u, none), [req])

/-- GetUsersByName (user.go 102-120): on any error a fresh empty slice is
returned, not the decode target. -/
def Client.GetUsersByName (c : Client) (names : List String)
    (transport : HttpRequest → TransportResult UsersResult) :
    (List User × Option String) × List HttpRequest :=
  let uri := baseURI ++ "/users?login=" ++ String.intercalate "," names
  let req := c.makeGetRequest uri
  match transport req with
  | .error e => (([], some e), [req])
  | .ok res =>
    match res.body with
    | (_, some e) => (([], some e), [req])
    | (userRes, none) => ((userRes.Users, none), [req])

/-- GetUserSubscription (user.go 123-152): the URI is built before the
scope check; 404 and 422 are mapped to domain errors before decoding. -/
def AccessClient.GetUserSubscription (ac : AccessClient) (userID channelID : String)
    (transport : HttpRequest → TransportResult Subscription) :
    (Subscription × Option String) × List HttpRequest :=
  let subscription := Subscription.zero
  let uri := baseURI ++ "/users/" ++ userID ++ "/subscriptions/" ++ channelID
  match ac.validateScope "user_subscriptions" with
  | some err => ((subscription, some err), [])
  | none =>
    let req := ac.makeGetRequest uri
    match transport req with
    | .error e => ((subscription, some e), [req])
    | .ok res =>
      if res.statusCode = 404 then
        ((subscription, some "user is not subscribed"), [req])
      else if res.statusCode = 422 then
        ((subscription, some "channel does not have a subscription program"), [req])
      else
        match res.body with
        | (s, some e) => ((s, some e), [req])
        | (s, none) => ((s, none), [req])

/-- The JSON payload `json.Marshal` produces for the anonymous
notifications struct in FollowChannel. -/
def notificationsPayload (notify : Bool) : String :=
  "\x7b\"notifications\":" ++ (if notify then "true" else "false") ++ "\x7d"

/-- The error message of FollowChannel on status 422. -/
def followErrMsg (userID channelID : String) : String :=
  "User " ++ userID ++ " could not follow Channel " ++ channelID

/-- FollowChannel (user.go 199-230): scope check, PUT with notifications
payload, 422 mapped to a domain error, then decode.  (The `json.Marshal`
error branch is unreachable for this fixed struct and is omitted.) -/
def AccessClient.FollowChannel (ac : AccessClient) (userID channelID : String)
    (notify : Bool) (transport : HttpRequest → TransportResult Follow) :
    (Follow × Option String) × List HttpRequest :=
  let follow := Follow.zero
  match ac.validateScope "user_follows_edit" with
  | some err => ((follow, some err), [])
  | none =>
    let uri := baseURI ++ "/users/" ++ userID ++ "/follows/channels/" ++ channelID
    let payload := notificationsPayload notify
    let req := ac.makePutRequest uri payload
    match transport req with
    | .error e => ((follow, some e), [req])
    | .ok res =>
      if res.statusCode = 422 then
        ((follow, some (followErrMsg userID channelID)), [req])
      else
        match res.body with
        | (f, some e) => ((f, some e), [req])
        | (f, none) => ((f, none), [req])

/-- The error message of UnfollowChannel for a non-204 status. -/
def unfollowErrMsg (userID channelID : String) : String :=
  "Failed to unfollow User " ++ userID ++ " from Channel " ++ channelID

/-- UnfollowChannel (user.go 232-249): scope check, DELETE, success iff
status 204; the body is never decoded. -/
def AccessClient.UnfollowChannel (ac : AccessClient) (userID channelID : String)
    (transport : HttpRequest → TransportResult Unit) :
    Option String × List HttpRequest :=
  match ac.validateScope "user_follows_edit" with
  | some err => (some err, [])
  | none =>
    let uri := baseURI ++ "/users/" ++ userID ++ "/follows/channels/" ++ channelID
    let req := ac.makeDeleteRequest uri
    match transport req with
    | .error e => (some e, [req])
    | .ok res =>
      if res.statusCode ≠ 204 then
        (some (unfollowErrMsg userID channelID), [req])
      else
        (none, [req])

/-- BlockUser (user.go 251-269): scope check, PUT with nil payload (an
empty body), then decode; no status mapping. -/
def AccessClient.BlockUser (ac : AccessClient) (userID blockedID : String)
    (transport : HttpRequest → TransportResult Block) :
    (Block × Option String) × List HttpRequest :=
  let block := Block.zero
  match ac.validateScope "user_blocks_edit" with
  | some err => ((block, some err), [])
  | none =>
    let uri := baseURI ++ "/users/" ++ userID ++ "/blocks/" ++ blockedID
    let req := ac.makePutRequest uri ""
    match transport req with
    | .error e => ((block, some e), [req])
    | .ok res =>
      match res.body with
      | (b, some e) => ((b, some e), [req])
      | (b, none) => ((b, none), [req])

/-- Concrete fixtures used by witnesses and counterexamples. -/
def sampleClient : Client := NewClient "cid" "secret" "http://localhost:8080/authorized"

def noScopeAC : AccessClient := sampleClient.WithAccess (NewAccess "tok" [])

def fullScopeAC : AccessClient :=
  sampleClient.WithAccess
    (NewAccess "tok" ["user_read", "user_subscriptions", "user_follows_edit", "user_blocks_edit"])

/-- A partially populated Subscription as the JSON decoder can leave it
when a later field has a mismatched JSON type: the fields decoded before
the error keep their values (encoding/json skips the bad field, finishes,
and then reports the error). -/
def partialSub : Subscription := { Subscription.zero with ID := "partial" }

/-- A transport response whose body decodes partially and errors. -/
def badBodyTransport : HttpRequest → TransportResult Subscription :=
  fun _ => .ok ⟨200, (partialSub, some "json: cannot unmarshal number into field sub_plan")⟩

theorem scopeScan_eq_none_iff (l : List String) (r : String) :
    scopeScan l r = none ↔ r ∈ l := by
  induction l with
  | nil => simp [scopeScan]
  | cons s rest ih =>
    by_cases h : s = r
    · subst h
      simp [scopeScan]
    · simp only [scopeScan, if_neg h, ih, List.mem_cons]
      constructor
      · exact fun hm => Or.inr hm
      · rintro (hm | hm)
        · exact absurd hm.symm h
        · exact hm

theorem scopeScan_not_mem (l : List String) (r : String) (h : r ∉ l) :
    scopeScan l r = some (scopeErrMsg r) := by
  induction l with
  | nil => rfl
  | cons s rest ih =>
    have hs : s ≠ r := fun he => h (he ▸ List.mem_cons_self s rest)
    have hr : r ∉ rest := fun hm => h (List.mem_cons_of_mem s hm)
    simp only [scopeScan, if_neg hs]
    exact ih hr

theorem validateScope_eq_none (ac : AccessClient) (r : String)
    (h : r ∈ ac.access.Scope) : ac.validateScope r = none :=
  (scopeScan_eq_none_iff ac.access.Scope r).mpr h

theorem validateScope_missing (ac : AccessClient) (r : String)
    (h : r ∉ ac.access.Scope) : ac.validateScope r = some (scopeErrMsg r) :=
  scopeScan_not_mem ac.access.Scope r h

/-- C1: For every Access value with granted scope list S and every required
scope string r, `Access.ValidateScope r` returns no error iff r is an exact
element of S; when r is not in S, the error message names the scope r. -/
theorem c1_validateScope_iff_mem (a : Access) (r : String) :
    (a.ValidateScope r = none ↔ r ∈ a.Scope) ∧
    (r ∉ a.Scope →
      a.ValidateScope r = some (scopeErrMsg r) ∧
      ∃ p q, scopeErrMsg r = p ++ r ++ q) := by
  refine ⟨scopeScan_eq_none_iff a.Scope r, fun h => ⟨scopeScan_not_mem a.Scope r h, ?_⟩⟩
  exact ⟨"Can not complete request because Access struct does not have \x27", "\x27 scope", rfl⟩

/-- Witness for C1 at a concrete Access lacking the scope. -/
theorem c1_validateScope_witness :
    Access.ValidateScope (NewAccess "tok" ["user_read"]) "user_follows_edit" =
      some (scopeErrMsg "user_follows_edit") ∧
    ∃ p q, scopeErrMsg "user_follows_edit" = p ++ "user_follows_edit" ++ q :=
  (c1_validateScope_iff_mem (NewAccess "tok" ["user_read"]) "user_follows_edit").2 (by decide)

/-- C4: The authorize redirect built by Authorize targets
{baseURI}/oauth2/authorize and carries exactly the four query parameters
client_id, redirect_uri, response_type=code and scope, the latter the
input scopes joined by single spaces in input order. -/
theorem c4_authorize_uri (c : Client) (scopes : List String) :
    (c.Authorize scopes).location.path = baseURI ++ "/oauth2/authorize" ∧
    (c.Authorize scopes).location.query =
      [("client_id", c.clientID),
       ("redirect_uri", c.redirectURI),
       ("response_type", "code"),
       ("scope", String.intercalate " " scopes)] :=
  ⟨rfl, rfl⟩

/-- C8 corrected at a concrete input: the POST request built by
`Client.makePostRequest` (a write call) does not carry the Content-Type
header, refuting the claim that every write call carries it. -/
theorem c8_counterexample :
    ("Content-Type", "application/json") ∉
      (sampleClient.makePostRequest "http://x" "payload").headers := by
  decide

/-- C8 (amended): every request built by the transport helpers carries the
Client-ID and Accept headers; requests built by AccessClient helpers
additionally carry Authorization: OAuth <token>; AccessClient write calls
(POST and PUT) carry Content-Type: application/json, but the unused
`Client.makePostRequest` write helper does not set Content-Type. -/
theorem c8_headers (c : Client) (ac : AccessClient) (uri payload : String) :
    (c.makeGetRequest uri).headers =
      [("Client-ID", c.clientID), ("Accept", acceptMediaType)] ∧
    (c.makePostRequest uri payload).headers =
      [("Client-ID", c.clientID), ("Accept", acceptMediaType)] ∧
    (ac.makeGetRequest uri).headers =
      [("Authorization", "OAuth " ++ ac.access.Token),
       ("Client-ID", ac.client.clientID), ("Accept", acceptMediaType)] ∧
    (ac.makeDeleteRequest uri).headers =
      [("Authorization", "OAuth " ++ ac.access.Token),
       ("Client-ID", ac.client.clientID), ("Accept", acceptMediaType)] ∧
    (ac.makePostRequest uri payload).headers =
      [("Authorization", "OAuth " ++ ac.access.Token),
       ("Client-ID", ac.client.clientID), ("Accept", acceptMediaType),
       ("Content-Type", "application/json")] ∧
    (ac.makePutRequest uri payload).headers =
      [("Authorization", "OAuth " ++ ac.access.Token),
       ("Client-ID", ac.client.clientID), ("Accept", acceptMediaType),
       ("Content-Type", "application/json")] :=
  ⟨rfl, rfl, rfl, rfl, rfl, rfl⟩

/-- C10: NewClient's accessors return its three arguments, and WithAccess
preserves the three accessor values and the supplied Access unchanged. -/
theorem c10_newClient_withAccess (clientID secret redirectURI : String) (access : Access) :
    (NewClient clientID secret redirectURI).ClientID = clientID ∧
    (NewClient clientID secret redirectURI).Secret = secret ∧
    (NewClient clientID secret redirectURI).RedirectURI = redirectURI ∧
    ((NewClient clientID secret redirectURI).WithAccess access).client.ClientID = clientID ∧
    ((NewClient clientID secret redirectURI).WithAccess access).client.Secret = secret ∧
    ((NewClient clientID secret redirectURI).WithAccess access).client.RedirectURI = redirectURI ∧
    ((NewClient clientID secret redirectURI).WithAccess access).access = access :=
  ⟨rfl, rfl, rfl, rfl, rfl, rfl, rfl⟩

/-- C2: every scope-gated operation run by an AccessClient lacking the
operation's required scope returns the scope error with the zero result
and issues no request at all (empty trace), for every transport. -/
theorem c2_missing_scope_no_network (ac : AccessClient)
    (tU : HttpRequest → TransportResult User)
    (tS : HttpRequest → TransportResult Subscription)
    (tF : HttpRequest → TransportResult Follow)
    (tUn : HttpRequest → TransportResult Unit)
    (tB : HttpRequest → TransportResult Block)
    (userID channelID blockedID : String) (notify : Bool) :
    ("user_read" ∉ ac.access.Scope →
      ac.GetUser tU = ((User.zero, some (scopeErrMsg "user_read")), [])) ∧
    ("user_subscriptions" ∉ ac.access.Scope →
      ac.GetUserSubscription userID channelID tS =
        ((Subscription.zero, some (scopeErrMsg "user_subscriptions")), [])) ∧
    ("user_follows_edit" ∉ ac.access.Scope →
      ac.FollowChannel userID channelID notify tF =
        ((Follow.zero, some (scopeErrMsg "user_follows_edit")), [])) ∧
    ("user_follows_edit" ∉ ac.access.Scope →
      ac.UnfollowChannel userID channelID tUn =
        (some (scopeErrMsg "user_follows_edit"), [])) ∧
    ("user_blocks_edit" ∉ ac.access.Scope →
      ac.BlockUser userID blockedID tB =
        ((Block.zero, some (scopeErrMsg "user_blocks_edit")), [])) := by
  refine ⟨fun h => ?_, fun h => ?_, fun h => ?_, fun h => ?_, fun h => ?_⟩ <;>
    simp [AccessClient.GetUser, AccessClient.GetUserSubscription,
          AccessClient.FollowChannel, AccessClient.UnfollowChannel,
          AccessClient.BlockUser, validateScope_missing ac _ h]

/-- Witness for C2: an AccessClient with an empty scope list runs all five
operations without any network call. -/
theorem c2_missing_scope_witness :
    noScopeAC.GetUser (fun _ => .error "net") =
      ((User.zero, some (scopeErrMsg "user_read")), []) ∧
    noScopeAC.GetUserSubscription "u" "c" (fun _ => .error "net") =
      ((Subscription.zero, some (scopeErrMsg "user_subscriptions")), []) ∧
    noScopeAC.FollowChannel "u" "c" true (fun _ => .error "net") =
      ((Follow.zero, some (scopeErrMsg "user_follows_edit")), []) ∧
    noScopeAC.UnfollowChannel "u" "c" (fun _ => .error "net") =
      (some (scopeErrMsg "user_follows_edit"), []) ∧
    noScopeAC.BlockUser "u" "b" (fun _ => .error "net") =
      ((Block.zero, some (scopeErrMsg "user_blocks_edit")), []) := by
  have h := c2_missing_scope_no_network noScopeAC
    (fun _ => .error "net") (fun _ => .error "net") (fun _ => .error "net")
    (fun _ => .error "net") (fun _ => .error "net") "u" "c" "b" true
  exact ⟨h.1 (by decide), h.2.1 (by decide), h.2.2.1 (by decide),
         h.2.2.2.1 (by decide), h.2.2.2.2 (by decide)⟩

/-- C3: the token-exchange request is a POST to {baseURI}/oauth2/token
whose query parameters are exactly client_id, client_secret, code,
grant_type=authorization_code and redirect_uri, with no body; and
getAccessToken issues exactly that request. -/
theorem c3_token_request (c : Client) (authCode : String)
    (t : HttpRequest → TransportResult Access) :
    c.getAccessTokenRequest authCode =
      { method := "POST", uri := baseURI ++ "/oauth2/token",
        query := [("client_id", c.clientID),
                  ("client_secret", c.secret),
                  ("code", authCode),
                  ("grant_type", "authorization_code"),
                  ("redirect_uri", c.redirectURI)],
        headers := [], body := none } ∧
    (c.getAccessToken authCode t).2 = [c.getAccessTokenRequest authCode] := by
  refine ⟨rfl, ?_⟩
  simp only [Client.getAccessToken]
  rcases t (c.getAccessTokenRequest authCode) with e | res
  · rfl
  · rcases hres : res.body with ⟨a, oe⟩
    rcases oe with _ | e <;> simp [hres]

/-- C7: Client.GetUserByID constructs the same outbound request (GET to
{baseURI}/user with the standard headers) for any two id arguments, and its
whole result is independent of the id. -/
theorem c7_getUserByID_ignores_id (c : Client) (idA idB : String)
    (t : HttpRequest → TransportResult User) :
    c.GetUserByID idA t = c.GetUserByID idB t ∧
    (c.GetUserByID idA t).2 =
      [{ method := "GET", uri := baseURI ++ "/user", query := [],
         headers := [("Client-ID", c.clientID), ("Accept", acceptMediaType)],
         body := none }] := by
  refine ⟨rfl, ?_⟩
  simp only [Client.GetUserByID]
  rcases t (c.makeGetRequest (baseURI ++ "/user")) with e | res
  · rfl
  · rcases hres : res.body with ⟨u, oe⟩
    rcases oe with _ | e <;> simp [hres, Client.makeGetRequest, Client.ClientID]

/-- C5: with the user_subscriptions scope held, GetUserSubscription maps
status 404 to the "not subscribed" error, status 422 to the "no
subscription program" error, and on status 200 with a cleanly decoding
body returns the decoded Subscription with no error. -/
theorem c5_subscription_status (ac : AccessClient) (userID channelID : String)
    (s : Nat) (sub : Subscription)
    (hscope : "user_subscriptions" ∈ ac.access.Scope) :
    ((ac.GetUserSubscription userID channelID (fun _ => .ok ⟨s, (sub, none)⟩)).1.2 =
        some "user is not subscribed" ↔ s = 404) ∧
    ((ac.GetUserSubscription userID channelID (fun _ => .ok ⟨s, (sub, none)⟩)).1.2 =
        some "channel does not have a subscription program" ↔ s = 422) ∧
    (s = 200 →
      (ac.GetUserSubscription userID channelID (fun _ => .ok ⟨s, (sub, none)⟩)).1 =
        (sub, none)) := by
  have hv := validateScope_eq_none ac _ hscope
  have hne : ("channel does not have a subscription program" : String) ≠
      "user is not subscribed" := by decide
  simp only [AccessClient.GetUserSubscription, hv]
  by_cases h4 : s = 404
  · subst h4
    simp
  · by_cases h22 : s = 422
    · subst h22
      simp [hne]
    · simp [h4, h22]

/-- Witness for C5 at a concrete AccessClient holding the scope and a
mocked 404 response. -/
theorem c5_subscription_witness :
    ((fullScopeAC.GetUserSubscription "44322889" "129454141"
        (fun _ => .ok ⟨404, (Subscription.zero, none)⟩)).1.2 =
      some "user is not subscribed" ↔ (404 : Nat) = 404) ∧
    ((fullScopeAC.GetUserSubscription "44322889" "129454141"
        (fun _ => .ok ⟨404, (Subscription.zero, none)⟩)).1.2 =
      some "channel does not have a subscription program" ↔ (404 : Nat) = 422) ∧
    ((404 : Nat) = 200 →
      (fullScopeAC.GetUserSubscription "44322889" "129454141"
        (fun _ => .ok ⟨404, (Subscription.zero, none)⟩)).1 = (Subscription.zero, none)) :=
  c5_subscription_status fullScopeAC "44322889" "129454141" 404 Subscription.zero (by decide)

/-- C6: with the user_follows_edit scope held, UnfollowChannel succeeds
iff the response status is 204; any other status yields the failure error
whose message names both supplied IDs. -/
theorem c6_unfollow_status (ac : AccessClient) (userID channelID : String) (s : Nat)
    (hscope : "user_follows_edit" ∈ ac.access.Scope) :
    ((ac.UnfollowChannel userID channelID (fun _ => .ok ⟨s, ((), none)⟩)).1 = none ↔
      s = 204) ∧
    (s ≠ 204 →
      (ac.UnfollowChannel userID channelID (fun _ => .ok ⟨s, ((), none)⟩)).1 =
        some (unfollowErrMsg userID channelID) ∧
      ∃ p q, unfollowErrMsg userID channelID = p ++ userID ++ q ++ channelID) := by
  have hv := validateScope_eq_none ac _ hscope
  simp only [AccessClient.UnfollowChannel, hv]
  by_cases h : s = 204
  · subst h
    simp
  · refine ⟨by simp [h], fun _ => ⟨by simp [h], ?_⟩⟩
    exact ⟨"Failed to unfollow User ", " from Channel ", rfl⟩

/-- Witness for C6 at a concrete AccessClient holding the scope and a
mocked 500 response. -/
theorem c6_unfollow_witness :
    ((fullScopeAC.UnfollowChannel "44322889" "129454141"
        (fun _ => .ok ⟨500, ((), none)⟩)).1 = none ↔ (500 : Nat) = 204) ∧
    ((500 : Nat) ≠ 204 →
      (fullScopeAC.UnfollowChannel "44322889" "129454141"
        (fun _ => .ok ⟨500, ((), none)⟩)).1 =
          some (unfollowErrMsg "44322889" "129454141") ∧
      ∃ p q, unfollowErrMsg "44322889" "129454141" = p ++ "44322889" ++ q ++ "129454141") :=
  c6_unfollow_status fullScopeAC "44322889" "129454141" 500 (by decide)

/-- C9 refuted at a concrete input: with the scope held and a 200 response
whose body partially decodes, GetUserSubscription returns an error
together with a record different from the zero Subscription. -/
theorem c9_counterexample :
    (fullScopeAC.GetUserSubscription "44322889" "129454141" badBodyTransport).1.2 ≠ none ∧
    (fullScopeAC.GetUserSubscription "44322889" "129454141" badBodyTransport).1.1 ≠
      Subscription.zero := by
  decide

/-- C9 (amended): errors from a scope failure, a transport failure, or a
mapped status code are always accompanied by the zero record, and
GetUsersByName returns an empty list alongside every error; but on a
decode failure GetUserSubscription and FollowChannel return the record
exactly as the decoder left it, which may be partially populated. -/
theorem c9_error_record_shape (ac : AccessClient) (c : Client) (names : List String)
    (userID channelID : String) (notify : Bool) (e : String) (s : Nat)
    (sub : Subscription) (f : Follow)
    (tU : HttpRequest → TransportResult UsersResult) :
    ((c.GetUsersByName names tU).1.2 ≠ none → (c.GetUsersByName names tU).1.1 = []) ∧
    ("user_subscriptions" ∉ ac.access.Scope →
      ∀ tS, (ac.GetUserSubscription userID channelID tS).1.1 = Subscription.zero) ∧
    ("user_follows_edit" ∉ ac.access.Scope →
      ∀ tF, (ac.FollowChannel userID channelID notify tF).1.1 = Follow.zero) ∧
    ((ac.GetUserSubscription userID channelID (fun _ => .error e)).1.1 =
      Subscription.zero) ∧
    ((ac.FollowChannel userID channelID notify (fun _ => .error e)).1.1 = Follow.zero) ∧
    ((ac.GetUserSubscription userID channelID (fun _ => .ok ⟨404, (sub, none)⟩)).1.1 =
      Subscription.zero) ∧
    ((ac.GetUserSubscription userID channelID (fun _ => .ok ⟨422, (sub, none)⟩)).1.1 =
      Subscription.zero) ∧
    ((ac.FollowChannel userID channelID notify (fun _ => .ok ⟨422, (f, none)⟩)).1.1 =
      Follow.zero) ∧
    (s ≠ 404 → s ≠ 422 → "user_subscriptions" ∈ ac.access.Scope →
      (ac.GetUserSubscription userID channelID (fun _ => .ok ⟨s, (sub, some e)⟩)).1 =
        (sub, some e)) ∧
    (s ≠ 422 → "user_follows_edit" ∈ ac.access.Scope →
      (ac.FollowChannel userID channelID notify (fun _ => .ok ⟨s, (f, some e)⟩)).1 =
        (f, some e)) := by
  refine ⟨?_, ?_, ?_, ?_, ?_, ?_, ?_, ?_, ?_, ?_⟩
  · simp only [Client.GetUsersByName]
    rcases tU (c.makeGetRequest
        (baseURI ++ "/users?login=" ++ String.intercalate "," names)) with e' | res
    · intro _
      rfl
    · rcases hres : res.body with ⟨ur, oe⟩
      rcases oe with _ | e' <;> simp [hres]
  · intro h tS
    simp [AccessClient.GetUserSubscription, validateScope_missing ac _ h]
  · intro h tF
    simp [AccessClient.FollowChannel, validateScope_missing ac _ h]
  · cases hv : ac.validateScope "user_subscriptions" with
    | none => simp [AccessClient.GetUserSubscription, hv]
    | some err => simp [AccessClient.GetUserSubscription, hv]
  · cases hv : ac.validateScope "user_follows_edit" with
    | none => simp [AccessClient.FollowChannel, hv]
    | some err => simp [AccessClient.FollowChannel, hv]
  · cases hv : ac.validateScope "user_subscriptions" with
    | none => simp [AccessClient.GetUserSubscription, hv]
    | some err => simp [AccessClient.GetUserSubscription, hv]
  · cases hv : ac.validateScope "user_subscriptions" with
    | none => simp [AccessClient.GetUserSubscription, hv]
    | some err => simp [AccessClient.GetUserSubscription, hv]
  · cases hv : ac.validateScope "user_follows_edit" with
    | none => simp [AccessClient.FollowChannel, hv]
    | some err => simp [AccessClient.FollowChannel, hv]
  · intro h4 h22 hmem
    simp [AccessClient.GetUserSubscription, validateScope_eq_none ac _ hmem, h4, h22]
  · intro h22 hmem
    simp [AccessClient.FollowChannel, validateScope_eq_none ac _ hmem, h22]

/-- Witness for C9 (amended): the decode-failure clause applied at a
concrete AccessClient, status 200 and a partially decoded body. -/
theorem c9_error_record_witness :
    (fullScopeAC.GetUserSubscription "44322889" "129454141"
        (fun _ => .ok ⟨200, (partialSub, some "decode fail")⟩)).1 =
      (partialSub, some "decode fail") :=
  (c9_error_record_shape fullScopeAC sampleClient [] "44322889" "129454141" true
      "decode fail" 200 partialSub Follow.zero
      (fun _ => .error "net")).2.2.2.2.2.2.2.2.1 (by decide) (by decide) (by decide)
